import Mathlib

/-!
Verification of the DailyTaskLoggerBot webhook service (src/bot.py).

The development shallowly embeds the Python source:

* raw request bodies and header values are lists of natural numbers
  (bytes, respectively Unicode code points);
* `verify_discord_request` is embedded over an abstract Ed25519
  verification primitive `V : key bytes → message bytes → signature
  bytes → Bool`, with Python's catch-all `except` collapsed into the
  `Option`-valued parsing steps (hex decoding, UTF-8 decoding, key and
  signature length checks performed by PyNaCl);
* the Flask handler `interactions` becomes a pure function from the
  request, the parsed JSON payload, the clock, and the outcome of the
  external spreadsheet call to the HTTP response and the new sheet
  contents;
* module-level configuration loading becomes `startupConfig`, and the
  `__main__` block becomes `register_commands`/`main_reaches_server`.
-/

/-! ## UTF-8 codec over byte lists

`bot.py` decodes the raw body with `req.data.decode("utf-8")` and
re-encodes `f"{timestamp}{body}".encode()`.  We model Python strings as
lists of Unicode code points and implement strict UTF-8 (rejecting
overlong forms, surrogates and code points above 0x10FFFF), matching
CPython's default codec. -/

/-- A Unicode scalar value: what a Python `str` element produced by
UTF-8 decoding can be. -/
def ValidCP (c : Nat) : Prop := c < 55296 ∨ (57344 ≤ c ∧ c < 1114112)

instance (c : Nat) : Decidable (ValidCP c) := by
  unfold ValidCP; infer_instance

/-- UTF-8 encoding of a single code point (1 to 4 bytes). -/
def encodeChar (c : Nat) : List Nat :=
  if c < 128 then [c]
  else if c < 2048 then [192 + c / 64, 128 + c % 64]
  else if c < 65536 then [224 + c / 4096, 128 + c / 64 % 64, 128 + c % 64]
  else [240 + c / 262144, 128 + c / 4096 % 64, 128 + c / 64 % 64, 128 + c % 64]

/-- UTF-8 encoding of a string (list of code points); this is
`str.encode()` in the source. -/
def utf8Encode : List Nat → List Nat
  | [] => []
  | c :: s => encodeChar c ++ utf8Encode s

/-- Decode a two-byte UTF-8 sequence after lead byte `b0`. -/
def dec2 (b0 : Nat) : List Nat → Option (Nat × List Nat)
  | b1 :: r =>
    if 128 ≤ b1 ∧ b1 < 192 then some ((b0 - 192) * 64 + (b1 - 128), r) else none
  | [] => none

/-- Decode a three-byte UTF-8 sequence after lead byte `b0`, rejecting
overlong forms and surrogates. -/
def dec3 (b0 : Nat) : List Nat → Option (Nat × List Nat)
  | b1 :: b2 :: r =>
    if (128 ≤ b1 ∧ b1 < 192) ∧ (128 ≤ b2 ∧ b2 < 192) ∧
        (224 < b0 ∨ 160 ≤ b1) ∧ (b0 ≠ 237 ∨ b1 < 160) then
      some ((b0 - 224) * 4096 + (b1 - 128) * 64 + (b2 - 128), r)
    else none
  | _ => none

/-- Decode a four-byte UTF-8 sequence after lead byte `b0`, rejecting
overlong forms and code points above 0x10FFFF. -/
def dec4 (b0 : Nat) : List Nat → Option (Nat × List Nat)
  | b1 :: b2 :: b3 :: r =>
    if (128 ≤ b1 ∧ b1 < 192) ∧ (128 ≤ b2 ∧ b2 < 192) ∧ (128 ≤ b3 ∧ b3 < 192) ∧
        (240 < b0 ∨ 144 ≤ b1) ∧ (b0 ≠ 244 ∨ b1 < 144) then
      some ((b0 - 240) * 262144 + (b1 - 128) * 4096 + (b2 - 128) * 64 + (b3 - 128), r)
    else none
  | _ => none

/-- Decode one UTF-8 character from the front of a byte list. -/
def decodeChar : List Nat → Option (Nat × List Nat)
  | [] => none
  | b0 :: rest =>
    if b0 < 128 then some (b0, rest)
    else if b0 < 194 then none
    else if b0 < 224 then dec2 b0 rest
    else if b0 < 240 then dec3 b0 rest
    else if b0 < 245 then dec4 b0 rest
    else none

/-- Fuel-indexed UTF-8 decoding loop; with fuel at least the length of
the input it decodes the whole byte list. -/
def utf8DecodeGo : Nat → List Nat → Option (List Nat)
  | _, [] => some []
  | 0, _ :: _ => none
  | fuel + 1, b0 :: bs =>
    match decodeChar (b0 :: bs) with
    | none => none
    | some (c, r) => (utf8DecodeGo fuel r).map (c :: ·)

/-- Strict UTF-8 decoding of a byte list; this is
`bytes.decode("utf-8")` in the source, `none` standing for
`UnicodeDecodeError`. -/
def utf8Decode (b : List Nat) : Option (List Nat) :=
  utf8DecodeGo b.length b

/-! ### Round-trip properties of the codec -/

lemma encodeChar_ne_nil (c : Nat) : encodeChar c ≠ [] := by
  unfold encodeChar
  split_ifs <;> simp

lemma decodeChar_cons (b0 : Nat) (rest : List Nat) :
    decodeChar (b0 :: rest)
      = (if b0 < 128 then some (b0, rest)
         else if b0 < 194 then none
         else if b0 < 224 then dec2 b0 rest
         else if b0 < 240 then dec3 b0 rest
         else if b0 < 245 then dec4 b0 rest
         else none) := by
  simp only [decodeChar]

lemma dec2_cons (b0 b1 : Nat) (r : List Nat) :
    dec2 b0 (b1 :: r)
      = (if 128 ≤ b1 ∧ b1 < 192 then some ((b0 - 192) * 64 + (b1 - 128), r) else none) := by
  simp only [dec2]

lemma dec3_cons (b0 b1 b2 : Nat) (r : List Nat) :
    dec3 b0 (b1 :: b2 :: r)
      = (if (128 ≤ b1 ∧ b1 < 192) ∧ (128 ≤ b2 ∧ b2 < 192) ∧
            (224 < b0 ∨ 160 ≤ b1) ∧ (b0 ≠ 237 ∨ b1 < 160) then
          some ((b0 - 224) * 4096 + (b1 - 128) * 64 + (b2 - 128), r)
        else none) := by
  simp only [dec3]

lemma dec4_cons (b0 b1 b2 b3 : Nat) (r : List Nat) :
    dec4 b0 (b1 :: b2 :: b3 :: r)
      = (if (128 ≤ b1 ∧ b1 < 192) ∧ (128 ≤ b2 ∧ b2 < 192) ∧ (128 ≤ b3 ∧ b3 < 192) ∧
            (240 < b0 ∨ 144 ≤ b1) ∧ (b0 ≠ 244 ∨ b1 < 144) then
          some ((b0 - 240) * 262144 + (b1 - 128) * 4096 + (b2 - 128) * 64 + (b3 - 128), r)
        else none) := by
  simp only [dec4]

lemma decodeChar_encodeChar (c : Nat) (h : ValidCP c) (r : List Nat) :
    decodeChar (encodeChar c ++ r) = some (c, r) := by
  rcases Nat.lt_or_ge c 128 with h1 | h1
  · have e : encodeChar c = [c] := by unfold encodeChar; rw [if_pos h1]
    rw [e, List.cons_append, List.nil_append, decodeChar_cons, if_pos h1]
  · rcases Nat.lt_or_ge c 2048 with h2 | h2
    · have e : encodeChar c = [192 + c / 64, 128 + c % 64] := by
        unfold encodeChar; rw [if_neg (by omega), if_pos h2]
      rw [e]
      simp only [List.cons_append, List.nil_append]
      rw [decodeChar_cons, if_neg (by omega), if_neg (by omega), if_pos (by omega),
        dec2_cons, if_pos (by omega)]
      simp only [Option.some.injEq, Prod.mk.injEq]
      exact ⟨by omega, trivial⟩
    · rcases Nat.lt_or_ge c 65536 with h3 | h3
      · have e : encodeChar c = [224 + c / 4096, 128 + c / 64 % 64, 128 + c % 64] := by
          unfold encodeChar; rw [if_neg (by omega), if_neg (by omega), if_pos h3]
        have hsur : c < 55296 ∨ 57344 ≤ c := by
          rcases h with h | h
          · exact Or.inl h
          · exact Or.inr h.1
        rw [e]
        simp only [List.cons_append, List.nil_append]
        rw [decodeChar_cons, if_neg (by omega), if_neg (by omega), if_neg (by omega),
          if_pos (by omega), dec3_cons, if_pos (by refine ⟨⟨?_, ?_⟩, ⟨?_, ?_⟩, ?_, ?_⟩ <;> omega)]
        simp only [Option.some.injEq, Prod.mk.injEq]
        exact ⟨by omega, trivial⟩
      · have hv : c < 1114112 := by rcases h with h | h <;> omega
        have e : encodeChar c
            = [240 + c / 262144, 128 + c / 4096 % 64, 128 + c / 64 % 64, 128 + c % 64] := by
          unfold encodeChar
          rw [if_neg (by omega), if_neg (by omega), if_neg (by omega)]
        rw [e]
        simp only [List.cons_append, List.nil_append]
        rw [decodeChar_cons, if_neg (by omega), if_neg (by omega), if_neg (by omega),
          if_neg (by omega), if_pos (by omega), dec4_cons,
          if_pos (by refine ⟨⟨?_, ?_⟩, ⟨?_, ?_⟩, ⟨?_, ?_⟩, ?_, ?_⟩ <;> omega)]
        simp only [Option.some.injEq, Prod.mk.injEq]
        exact ⟨by omega, trivial⟩

lemma encodeChar_decodeChar {b : List Nat} {c : Nat} {r : List Nat}
    (h : decodeChar b = some (c, r)) : encodeChar c ++ r = b := by
  match b with
  | [] => simp [decodeChar] at h
  | b0 :: rest =>
    rw [decodeChar_cons] at h
    by_cases h1 : b0 < 128
    · rw [if_pos h1] at h
      obtain ⟨rfl, rfl⟩ : b0 = c ∧ rest = r := by simpa using h
      have e : encodeChar b0 = [b0] := by unfold encodeChar; rw [if_pos h1]
      rw [e, List.cons_append, List.nil_append]
    · rw [if_neg h1] at h
      by_cases h2 : b0 < 194
      · rw [if_pos h2] at h; cases h
      · rw [if_neg h2] at h
        by_cases h3 : b0 < 224
        · rw [if_pos h3] at h
          match rest with
          | [] => simp [dec2] at h
          | b1 :: r1 =>
            rw [dec2_cons] at h
            by_cases hb1 : 128 ≤ b1 ∧ b1 < 192
            · rw [if_pos hb1] at h
              obtain ⟨rfl, rfl⟩ : (b0 - 192) * 64 + (b1 - 128) = c ∧ r1 = r := by
                simpa using h
              have e : encodeChar ((b0 - 192) * 64 + (b1 - 128))
                  = [192 + ((b0 - 192) * 64 + (b1 - 128)) / 64,
                     128 + ((b0 - 192) * 64 + (b1 - 128)) % 64] := by
                unfold encodeChar; rw [if_neg (by omega), if_pos (by omega)]
              rw [e]
              simp only [List.cons_append, List.nil_append, List.cons.injEq]
              refine ⟨by omega, by omega, trivial⟩
            · rw [if_neg hb1] at h; cases h
        · rw [if_neg h3] at h
          by_cases h4 : b0 < 240
          · rw [if_pos h4] at h
            match rest with
            | [] => simp [dec3] at h
            | [b1] => simp [dec3] at h
            | b1 :: b2 :: r2 =>
              rw [dec3_cons] at h
              by_cases hb : (128 ≤ b1 ∧ b1 < 192) ∧ (128 ≤ b2 ∧ b2 < 192) ∧
                  (224 < b0 ∨ 160 ≤ b1) ∧ (b0 ≠ 237 ∨ b1 < 160)
              · rw [if_pos hb] at h
                obtain ⟨rfl, rfl⟩ :
                    (b0 - 224) * 4096 + (b1 - 128) * 64 + (b2 - 128) = c ∧ r2 = r := by
                  simpa using h
                have hlo : 2048 ≤ (b0 - 224) * 4096 + (b1 - 128) * 64 + (b2 - 128) := by
                  rcases hb.2.2.1 with hx | hx <;> omega
                have e : encodeChar ((b0 - 224) * 4096 + (b1 - 128) * 64 + (b2 - 128))
                    = [224 + ((b0 - 224) * 4096 + (b1 - 128) * 64 + (b2 - 128)) / 4096,
                       128 + ((b0 - 224) * 4096 + (b1 - 128) * 64 + (b2 - 128)) / 64 % 64,
                       128 + ((b0 - 224) * 4096 + (b1 - 128) * 64 + (b2 - 128)) % 64] := by
                  unfold encodeChar
                  rw [if_neg (by omega), if_neg (by omega), if_pos (by omega)]
                rw [e]
                simp only [List.cons_append, List.nil_append, List.cons.injEq]
                refine ⟨by omega, by omega, by omega, trivial⟩
              · rw [if_neg hb] at h; cases h
          · rw [if_neg h4] at h
            by_cases h5 : b0 < 245
            · rw [if_pos h5] at h
              match rest with
              | [] => simp [dec4] at h
              | [b1] => simp [dec4] at h
              | [b1, b2] => simp [dec4] at h
              | b1 :: b2 :: b3 :: r3 =>
                rw [dec4_cons] at h
                by_cases hb : (128 ≤ b1 ∧ b1 < 192) ∧ (128 ≤ b2 ∧ b2 < 192) ∧
                    (128 ≤ b3 ∧ b3 < 192) ∧ (240 < b0 ∨ 144 ≤ b1) ∧ (b0 ≠ 244 ∨ b1 < 144)
                · rw [if_pos hb] at h
                  obtain ⟨rfl, rfl⟩ :
                      (b0 - 240) * 262144 + (b1 - 128) * 4096 + (b2 - 128) * 64 + (b3 - 128)
                        = c ∧ r3 = r := by
                    simpa using h
                  have hlo : 65536 ≤ (b0 - 240) * 262144 + (b1 - 128) * 4096
                      + (b2 - 128) * 64 + (b3 - 128) := by
                    rcases hb.2.2.2.1 with hx | hx <;> omega
                  have e : encodeChar ((b0 - 240) * 262144 + (b1 - 128) * 4096
                        + (b2 - 128) * 64 + (b3 - 128))
                      = [240 + ((b0 - 240) * 262144 + (b1 - 128) * 4096
                            + (b2 - 128) * 64 + (b3 - 128)) / 262144,
                         128 + ((b0 - 240) * 262144 + (b1 - 128) * 4096
                            + (b2 - 128) * 64 + (b3 - 128)) / 4096 % 64,
                         128 + ((b0 - 240) * 262144 + (b1 - 128) * 4096
                            + (b2 - 128) * 64 + (b3 - 128)) / 64 % 64,
                         128 + ((b0 - 240) * 262144 + (b1 - 128) * 4096
                            + (b2 - 128) * 64 + (b3 - 128)) % 64] := by
                    unfold encodeChar
                    rw [if_neg (by omega), if_neg (by omega), if_neg (by omega)]
                  rw [e]
                  simp only [List.cons_append, List.nil_append, List.cons.injEq]
                  refine ⟨by omega, by omega, by omega, by omega, trivial⟩
                · rw [if_neg hb] at h; cases h
            · rw [if_neg h5] at h; cases h

lemma decodeChar_shrinks {b : List Nat} {c : Nat} {r : List Nat}
    (h : decodeChar b = some (c, r)) : r.length < b.length := by
  have hb := encodeChar_decodeChar h
  have hne := encodeChar_ne_nil c
  have hlen : (encodeChar c).length + r.length = b.length := by
    rw [← hb]; simp
  have hpos : 0 < (encodeChar c).length := List.length_pos.mpr hne
  omega

lemma utf8DecodeGo_irrel : ∀ (fuel fuel' : Nat) (b : List Nat),
    b.length ≤ fuel → b.length ≤ fuel' →
    utf8DecodeGo fuel b = utf8DecodeGo fuel' b := by
  intro fuel
  induction fuel with
  | zero =>
    intro fuel' b hb hb'
    match b with
    | [] =>
      match fuel' with
      | 0 => rfl
      | f' + 1 => rfl
    | b0 :: bs => simp at hb
  | succ f ih =>
    intro fuel' b hb hb'
    match b with
    | [] =>
      match fuel' with
      | 0 => rfl
      | f' + 1 => rfl
    | b0 :: bs =>
      match fuel' with
      | 0 => simp at hb'
      | f' + 1 =>
        show (match decodeChar (b0 :: bs) with
              | none => none
              | some (c, r) => (utf8DecodeGo f r).map (c :: ·))
            = (match decodeChar (b0 :: bs) with
              | none => none
              | some (c, r) => (utf8DecodeGo f' r).map (c :: ·))
        match hd : decodeChar (b0 :: bs) with
        | none => rfl
        | some (c, r) =>
          have hr : r.length < (b0 :: bs).length := decodeChar_shrinks hd
          simp only [List.length_cons] at hr hb hb'
          show (utf8DecodeGo f r).map (c :: ·) = (utf8DecodeGo f' r).map (c :: ·)
          rw [ih f' r (by omega) (by omega)]

lemma utf8DecodeGo_fuel {fuel : Nat} {b : List Nat} (hb : b.length ≤ fuel) :
    utf8DecodeGo fuel b = utf8Decode b :=
  utf8DecodeGo_irrel fuel b.length b hb (Nat.le_refl _)

lemma utf8Decode_nil : utf8Decode [] = some [] := rfl

lemma utf8Decode_cons {b : List Nat} {c : Nat} {r : List Nat}
    (h : decodeChar b = some (c, r)) :
    utf8Decode b = (utf8Decode r).map (c :: ·) := by
  match b with
  | [] => simp [decodeChar] at h
  | b0 :: bs =>
    unfold utf8Decode
    show (match decodeChar (b0 :: bs) with
          | none => none
          | some (c, r) => (utf8DecodeGo bs.length r).map (c :: ·))
        = (utf8Decode r).map (c :: ·)
    rw [h]
    have hr : r.length < (b0 :: bs).length := decodeChar_shrinks h
    simp only [List.length_cons] at hr
    show (utf8DecodeGo bs.length r).map (c :: ·) = (utf8Decode r).map (c :: ·)
    rw [utf8DecodeGo_fuel (by omega)]

lemma utf8Encode_append (s t : List Nat) :
    utf8Encode (s ++ t) = utf8Encode s ++ utf8Encode t := by
  induction s with
  | nil => rfl
  | cons c s ih =>
    show encodeChar c ++ utf8Encode (s ++ t) = encodeChar c ++ utf8Encode s ++ utf8Encode t
    rw [ih, List.append_assoc]

/-- Decoding is a section of encoding: a byte list that strictly
decodes re-encodes to itself. -/
lemma utf8Encode_utf8Decode : ∀ {b s : List Nat}, utf8Decode b = some s →
    utf8Encode s = b := by
  have go : ∀ (fuel : Nat) (b s : List Nat), b.length ≤ fuel →
      utf8Decode b = some s → utf8Encode s = b := by
    intro fuel
    induction fuel with
    | zero =>
      intro b s hb h
      match b with
      | [] =>
        obtain rfl : s = [] := by simpa [utf8Decode_nil] using h.symm
        rfl
      | b0 :: bs => simp at hb
    | succ f ih =>
      intro b s hb h
      match b with
      | [] =>
        obtain rfl : s = [] := by simpa [utf8Decode_nil] using h.symm
        rfl
      | b0 :: bs =>
        match hd : decodeChar (b0 :: bs) with
        | none =>
          rw [utf8Decode] at h
          simp only [List.length_cons] at h
          revert h
          show (match decodeChar (b0 :: bs) with
                | none => none
                | some (c, r) => (utf8DecodeGo bs.length r).map (c :: ·)) = some s → _
          rw [hd]
          intro h; cases h
        | some (c, r) =>
          rw [utf8Decode_cons hd] at h
          match hs : utf8Decode r with
          | none => rw [hs] at h; cases h
          | some s' =>
            rw [hs] at h
            obtain rfl : c :: s' = s := by simpa using h
            have hr : r.length < (b0 :: bs).length := decodeChar_shrinks hd
            simp only [List.length_cons] at hr hb
            have he : utf8Encode s' = r := ih r s' (by omega) hs
            show encodeChar c ++ utf8Encode s' = b0 :: bs
            rw [he, encodeChar_decodeChar hd]
  intro b s h
  exact go b.length b s (Nat.le_refl _) h

/-- Encoding is injective on valid code points. -/
lemma encodeChar_inj {c c' : Nat} (h : ValidCP c) (h' : ValidCP c')
    (he : encodeChar c = encodeChar c') : c = c' := by
  have h1 : decodeChar (encodeChar c ++ []) = some (c, []) := decodeChar_encodeChar c h []
  have h2 : decodeChar (encodeChar c' ++ []) = some (c', []) := decodeChar_encodeChar c' h' []
  rw [he, h2] at h1
  simpa using h1.symm

/-! ### Single-element mutations -/

/-- `l'` is `l` with exactly one element changed. -/
def OneDiff (l l' : List Nat) : Prop :=
  ∃ p c c' s, c ≠ c' ∧ l = p ++ c :: s ∧ l' = p ++ c' :: s

lemma OneDiff.ne {l l' : List Nat} (h : OneDiff l l') : l ≠ l' := by
  obtain ⟨p, c, c', s, hcc, rfl, rfl⟩ := h
  intro he
  exact hcc (by simpa using List.append_cancel_left he)

lemma OneDiff.length_eq {l l' : List Nat} (h : OneDiff l l') : l.length = l'.length := by
  obtain ⟨p, c, c', s, hcc, rfl, rfl⟩ := h
  simp

/-- One changed code point changes the UTF-8 encoding. -/
lemma utf8Encode_oneDiff_ne {ts ts' : List Nat}
    (hv : ∀ c ∈ ts, ValidCP c) (hv' : ∀ c ∈ ts', ValidCP c)
    (h : OneDiff ts ts') : utf8Encode ts ≠ utf8Encode ts' := by
  obtain ⟨p, c, c', s, hcc, rfl, rfl⟩ := h
  intro he
  rw [utf8Encode_append, utf8Encode_append] at he
  have he2 : utf8Encode (c :: s) = utf8Encode (c' :: s) := List.append_cancel_left he
  have he3 : encodeChar c ++ utf8Encode s = encodeChar c' ++ utf8Encode s := he2
  have he4 : encodeChar c = encodeChar c' := List.append_cancel_right he3
  exact hcc (encodeChar_inj (hv c (by simp)) (hv' c' (by simp)) he4)

/-! ## Hex decoding and the signature verifier

`bot.py`, `verify_discord_request` (lines 102–112): reads the two
signature headers, decodes the body as UTF-8, builds
`VerifyKey(bytes.fromhex(DISCORD_PUBLIC_KEY))` and calls
`verify_key.verify(f"{timestamp}{body}".encode(), bytes.fromhex(signature))`.
Every raised fault (missing header, bad hex, bad UTF-8, wrong key or
signature length, failed verification) is caught and turned into
`False`. -/

/-- Value of a hex digit character (by code point), as accepted by
Python's `bytes.fromhex`. -/
def hexDigitVal (c : Nat) : Option Nat :=
  if 48 ≤ c ∧ c ≤ 57 then some (c - 48)
  else if 97 ≤ c ∧ c ≤ 102 then some (c - 87)
  else if 65 ≤ c ∧ c ≤ 70 then some (c - 55)
  else none

/-- `bytes.fromhex`: pairs of hex digits, ASCII spaces allowed between
pairs, `none` for `ValueError`. -/
def fromhex : List Nat → Option (List Nat)
  | [] => some []
  | c :: rest =>
    if c = 32 then fromhex rest
    else
      match rest with
      | [] => none
      | d :: rest2 =>
        match hexDigitVal c, hexDigitVal d, fromhex rest2 with
        | some hi, some lo, some bs => some ((hi * 16 + lo) :: bs)
        | _, _, _ => none

/-- An inbound `POST /interactions` request as the verifier sees it:
the two signature headers (as strings, i.e. code-point lists; `none`
when the header is absent, which makes `req.headers[...]` raise
`KeyError`) and the raw body bytes `req.data`. -/
structure Request where
  sigHeader : Option (List Nat)
  tsHeader : Option (List Nat)
  body : List Nat
deriving DecidableEq

/-- `verify_discord_request` (lines 102–112), parameterised by the
Ed25519 primitive `V : public-key bytes → message bytes → signature
bytes → Bool` implemented by PyNaCl.  The `try/except` collapses every
parsing failure to `false`; PyNaCl additionally raises (hence `false`)
when the key is not 32 bytes or the signature not 64 bytes. -/
def verify_discord_request (V : List Nat → List Nat → List Nat → Bool)
    (publicKey : List Nat) (req : Request) : Bool :=
  match req.sigHeader, req.tsHeader with
  | some signature, some timestamp =>
    match utf8Decode req.body with
    | some body =>
      match fromhex publicKey with
      | some pkBytes =>
        if pkBytes.length = 32 then
          match fromhex signature with
          | some sigBytes =>
            if sigBytes.length = 64 then
              V pkBytes (utf8Encode (timestamp ++ body)) sigBytes
            else false
          | none => false
        else false
      | none => false
    | none => false
  | _, _ => false

lemma verify_true_elim {V : List Nat → List Nat → List Nat → Bool}
    {pkH : List Nat} {req : Request}
    (h : verify_discord_request V pkH req = true) :
    ∃ sigH ts bodyStr pkB sigB,
      req.sigHeader = some sigH ∧ req.tsHeader = some ts ∧
      utf8Decode req.body = some bodyStr ∧
      fromhex pkH = some pkB ∧ pkB.length = 32 ∧
      fromhex sigH = some sigB ∧ sigB.length = 64 ∧
      V pkB (utf8Encode (ts ++ bodyStr)) sigB = true := by
  unfold verify_discord_request at h
  repeat' split at h
  all_goals first
  | exact Bool.noConfusion h
  | exact ⟨_, _, _, _, _, by assumption, by assumption, by assumption, by assumption,
      by assumption, by assumption, by assumption, h⟩

lemma verify_eq_of {V : List Nat → List Nat → List Nat → Bool} {pkH : List Nat}
    {req : Request} {sigH ts bodyStr pkB sigB : List Nat}
    (hsig : req.sigHeader = some sigH) (hts : req.tsHeader = some ts)
    (hbody : utf8Decode req.body = some bodyStr)
    (hpk : fromhex pkH = some pkB) (hpkLen : pkB.length = 32)
    (hs : fromhex sigH = some sigB) (hsLen : sigB.length = 64) :
    verify_discord_request V pkH req
      = V pkB (utf8Encode (ts ++ bodyStr)) sigB := by
  unfold verify_discord_request
  simp [hsig, hts, hbody, hpk, hs, hpkLen, hsLen]

/-! ## Interaction payloads

The handler reads the parsed JSON body through `dict.get`, relying on
Python truthiness (`x or y` takes `y` when `x` is `None`, an empty
string, or an empty dict).  We model each JSON object by the keys the
code reads; `none` stands for an absent key (or a `null` value, which
`dict.get` also surfaces as `None` for the identity fields). -/

/-- The nested `user` object: the identity fields read by
`extract_user_display`. -/
structure UserObj where
  global_name : Option String
  username : Option String
deriving DecidableEq

/-- The empty dict `{}`. -/
def UserObj.empty : UserObj := ⟨none, none⟩

/-- Python truthiness of the modelled `user` dict: a dict is truthy
when it has at least one key (we model exactly the keys the code
reads). -/
def UserObj.truthy (u : UserObj) : Bool :=
  u.global_name.isSome || u.username.isSome

/-- The `member` object: server nickname and nested user. -/
structure MemberObj where
  nick : Option String
  user : Option UserObj
deriving DecidableEq

/-- The empty dict `{}`. -/
def MemberObj.empty : MemberObj := ⟨none, none⟩

/-- Python truthiness of the modelled `member` dict. -/
def MemberObj.truthy (m : MemberObj) : Bool :=
  m.nick.isSome || m.user.isSome

/-- One entry of the `options` array: a `{name, value}` pair. -/
structure OptionObj where
  name : Option String
  value : Option String
deriving DecidableEq

/-- The `data` object of an APPLICATION_COMMAND payload: the command
name and its options (`data.get("options", [])` defaults to `[]`, so
an absent array is modelled as `[]`). -/
structure CmdData where
  name : Option String
  options : List OptionObj
deriving DecidableEq

/-- The parsed interaction payload, with the fields the handler
reads. -/
structure Interaction where
  type : Option Int
  data : Option CmdData
  member : Option MemberObj
  user : Option UserObj
deriving DecidableEq

/-- The empty dict `{}` that `request.json or {}` substitutes for a
falsy body. -/
def Interaction.empty : Interaction := ⟨none, none, none, none⟩

/-- Python `a or b` for an optional string `a`: `None` and `""` are
falsy. -/
def pyStrOr (a : Option String) (b : String) : String :=
  match a with
  | some s => if s = "" then b else s
  | none => b

/-- Python `a or b` for an optional `user` dict `a`. -/
def pyUserOr (a : Option UserObj) (b : UserObj) : UserObj :=
  match a with
  | some u => if u.truthy then u else b
  | none => b

/-- Python `a or b` for an optional `member` dict `a`. -/
def pyMemberOr (a : Option MemberObj) (b : MemberObj) : MemberObj :=
  match a with
  | some m => if m.truthy then m else b
  | none => b

/-- `member = data.get("member") or {}` (line 115). -/
def effMember (d : Interaction) : MemberObj :=
  pyMemberOr d.member MemberObj.empty

/-- `user = member.get("user") or data.get("user") or {}` (line 116). -/
def effUser (d : Interaction) : UserObj :=
  pyUserOr (effMember d).user (pyUserOr d.user UserObj.empty)

/-- `extract_user_display` (lines 114–118): prefer server nickname,
then global_name, then username, falling back to `"Unknown"`; Python
`or` also skips fields that are present but empty. -/
def extract_user_display (d : Interaction) : String :=
  pyStrOr (effMember d).nick
    (pyStrOr (effUser d).global_name
      (pyStrOr (effUser d).username "Unknown"))

/-- `option_value` (lines 120–126): first option whose `name` matches
wins, its `value` defaulting when the key is absent; an empty or
exhausted list yields the default. -/
def option_value (options : List OptionObj) (name : String)
    (default : String) : String :=
  match options with
  | [] => default
  | o :: os =>
    if o.name = some name then
      match o.value with
      | some v => v
      | none => default
    else option_value os name default

/-! ## Spreadsheet logger and HTTP handler -/

/-- The wall clock at the moment of the request, already formatted the
way `log_to_sheet` formats `now_ist()` (`%Y-%m-%d` and `%H:%M:%S`). -/
structure Clock where
  dateStr : String
  timeStr : String
deriving DecidableEq

/-- `log_to_sheet` (lines 48–53): append one six-field row to the
worksheet.  The sheet is the list of its rows. -/
def log_to_sheet (clk : Clock) (name action task_title desc : String)
    (sheet : List (List String)) : List (List String) :=
  sheet ++ [[clk.dateStr, name, action, clk.timeStr, task_title, desc]]

/-- An HTTP response of the `/interactions` endpoint: either the
`abort(401, ...)` rejection or a JSON 200 body
`{type: t, data?: {content: c}}`. -/
inductive HResp where
  | unauthorized (status : Nat) (message : String)
  | ok (type : Int) (content : Option String)
deriving DecidableEq

/-- HTTP status code of a response (`jsonify` responses are 200). -/
def HResp.status : HResp → Nat
  | .unauthorized s _ => s
  | .ok _ _ => 200

/-- `interactions` (lines 135–172).  Parameters beyond the request:
`V`/`publicKey` feed the verifier; `payload` is what `request.json`
parsed from the body (`none` for a falsy value, which `or {}` turns
into the empty dict); `clk` is the current time; `sheetOk` tells
whether the external `sheet.append_row` call succeeds, and `errMsg` is
the text of the exception it raises otherwise (caught by the handler's
`try/except`).  Returns the response and the new sheet contents. -/
def interactions (V : List Nat → List Nat → List Nat → Bool)
    (publicKey : List Nat) (payload : Option Interaction) (clk : Clock)
    (sheetOk : Bool) (errMsg : String) (req : Request)
    (sheet : List (List String)) : HResp × List (List String) :=
  if verify_discord_request V publicKey req = false then
    (HResp.unauthorized 401 "Invalid request signature", sheet)
  else
    let data := payload.getD Interaction.empty
    if data.type = some 1 then
      (HResp.ok 1 none, sheet)
    else if data.type = some 2 then
      let cmd := (data.data.getD ⟨none, []⟩).name
      let user_display := extract_user_display data
      if cmd = some "start" then
        if sheetOk then
          (HResp.ok 4 (some ("🟢 Start logged for **" ++ user_display ++ "**")),
           log_to_sheet clk user_display "Start" "" "" sheet)
        else
          (HResp.ok 4 (some ("❌ Error: " ++ errMsg)), sheet)
      else if cmd = some "end" then
        if sheetOk then
          (HResp.ok 4 (some ("🔴 End logged for **" ++ user_display ++ "**")),
           log_to_sheet clk user_display "End" "" "" sheet)
        else
          (HResp.ok 4 (some ("❌ Error: " ++ errMsg)), sheet)
      else if cmd = some "work_done" then
        let options := (data.data.getD ⟨none, []⟩).options
        let task_title := option_value options "task_title" ""
        let desc := option_value options "desc" ""
        if sheetOk then
          (HResp.ok 4 (some ("✅ Task logged: **" ++ task_title ++ "** — " ++ desc)),
           log_to_sheet clk user_display "Task" task_title desc sheet)
        else
          (HResp.ok 4 (some ("❌ Error: " ++ errMsg)), sheet)
      else
        (HResp.ok 4 (some "⚠ Unknown command"), sheet)
    else
      (HResp.ok 4 (some "Unsupported interaction type"), sheet)

/-! ## Startup: configuration and command registration -/

/-- The process environment, restricted to the variables `bot.py`
reads (lines 17–37 and 176); `none` means the variable is unset. -/
structure Env where
  TIMEZONE : Option String
  GOOGLE_SHEET_NAME : Option String
  DISCORD_PUBLIC_KEY : Option String
  DISCORD_TOKEN : Option String
  DISCORD_APP_ID : Option String
  DISCORD_GUILD_ID : Option String
  GOOGLE_CREDS_JSON : Option String
  PORT : Option String
deriving DecidableEq

/-- The configuration the module-level code ends up with when no
`ValueError` is raised. -/
structure Config where
  tz : String
  sheetName : String
  publicKey : String
  token : String
  appId : String
  guildId : Option String
  credsJson : String
deriving DecidableEq

/-- Python truthiness of `os.environ.get(...)`: `None` and `""` are
falsy (the source guards use `if not X`). -/
def pyTruthy (o : Option String) : Bool :=
  match o with
  | some s => !(s == "")
  | none => false

/-- The module-level configuration block (lines 17–37): `TIMEZONE`,
`GOOGLE_SHEET_NAME` fall back to defaults via `os.getenv(name,
default)`; the four guarded variables raise `ValueError` (modelled as
`Except.error` carrying the message) when falsy; `DISCORD_GUILD_ID`
only triggers a warning. -/
def startupConfig (e : Env) : Except String Config :=
  if pyTruthy e.DISCORD_PUBLIC_KEY = false then
    Except.error "DISCORD_PUBLIC_KEY env var is required"
  else if pyTruthy e.DISCORD_TOKEN = false then
    Except.error "DISCORD_TOKEN env var is required"
  else if pyTruthy e.DISCORD_APP_ID = false then
    Except.error "DISCORD_APP_ID env var is required"
  else if pyTruthy e.GOOGLE_CREDS_JSON = false then
    Except.error "GOOGLE_CREDS_JSON environment variable not set."
  else
    Except.ok
      ⟨e.TIMEZONE.getD "Asia/Kolkata", e.GOOGLE_SHEET_NAME.getD "Daily Logs",
        e.DISCORD_PUBLIC_KEY.getD "", e.DISCORD_TOKEN.getD "",
        e.DISCORD_APP_ID.getD "", e.DISCORD_GUILD_ID, e.GOOGLE_CREDS_JSON.getD ""⟩

/-- Digit-list parsing loop for `pyInt`. -/
def pyIntGo : List Char → Nat → Option Nat
  | [], acc => some acc
  | c :: cs, acc =>
    if 48 ≤ c.toNat ∧ c.toNat ≤ 57 then pyIntGo cs (acc * 10 + (c.toNat - 48))
    else none

/-- Python `int(s)` on a non-negative decimal string; `none` models
the `ValueError` raised on a non-numeric string. -/
def pyInt (s : String) : Option Nat :=
  match s.toList with
  | [] => none
  | cs => pyIntGo cs 0

/-- `int(os.environ.get("PORT", 5000))` (line 176). -/
def listenPort (e : Env) : Option Nat :=
  pyInt (e.PORT.getD "5000")

/-- The outcome of `requests.put(url, ...)` in `register_commands`
(line 96): either a completed HTTP exchange with a status code and
body text, or an exception raised by the `requests` library (network
failure, DNS error, timeout). -/
inductive PutOutcome where
  | response (status : Nat) (text : String)
  | raised (msg : String)
deriving DecidableEq

/-- Severity of the log line `register_commands` emits. -/
inductive LogLevel where
  | info
  | error
deriving DecidableEq

/-- `register_commands` (lines 85–100): a completed response is logged
(`info` on 200/201, `error` otherwise) and the function returns; an
exception from `requests.put` is NOT caught and propagates
(`Except.error`). -/
def register_commands (o : PutOutcome) : Except String LogLevel :=
  match o with
  | .response st _ => if st = 200 ∨ st = 201 then .ok .info else .ok .error
  | .raised m => .error m

/-- The `__main__` block (lines 174–177): `app.run` is reached exactly
when `register_commands` returns instead of raising. -/
def main_reaches_server (o : PutOutcome) : Bool :=
  match register_commands o with
  | .ok _ => true
  | .error _ => false

/-! ## Claims -/

/-- C5: for every interaction payload, exactly one display name is
derived, by priority: the member nickname if present, otherwise the
user's global display name if present, otherwise the username if
present, otherwise the literal string "Unknown".  ("Present" is
Python truthiness: a field that is absent or empty is skipped, see
C10.) -/
theorem c5_display_name_priority (d : Interaction) :
    (∀ n, (effMember d).nick = some n → n ≠ "" → extract_user_display d = n) ∧
    ((effMember d).nick = none ∨ (effMember d).nick = some "" →
      ∀ g, (effUser d).global_name = some g → g ≠ "" → extract_user_display d = g) ∧
    ((effMember d).nick = none ∨ (effMember d).nick = some "" →
      ((effUser d).global_name = none ∨ (effUser d).global_name = some "") →
      ∀ u, (effUser d).username = some u → u ≠ "" → extract_user_display d = u) ∧
    ((effMember d).nick = none ∨ (effMember d).nick = some "" →
      ((effUser d).global_name = none ∨ (effUser d).global_name = some "") →
      ((effUser d).username = none ∨ (effUser d).username = some "") →
      extract_user_display d = "Unknown") := by
  refine ⟨?_, ?_, ?_, ?_⟩
  · intro n hn hne
    simp [extract_user_display, pyStrOr, hn, hne]
  · intro hnick g hg hge
    rcases hnick with h | h <;>
      simp [extract_user_display, pyStrOr, h, hg, hge]
  · intro hnick hglobal u hu hue
    rcases hnick with h | h <;> rcases hglobal with h2 | h2 <;>
      simp [extract_user_display, pyStrOr, h, h2, hu, hue]
  · intro hnick hglobal huser
    rcases hnick with h | h <;> rcases hglobal with h2 | h2 <;>
      rcases huser with h3 | h3 <;>
      simp [extract_user_display, pyStrOr, h, h2, h3]

theorem c5_display_name_priority_witness :
    extract_user_display
      ⟨some 2, none, some ⟨some "Bob", some ⟨some "robert", some "rob123"⟩⟩, none⟩
      = "Bob" :=
  (c5_display_name_priority
    ⟨some 2, none, some ⟨some "Bob", some ⟨some "robert", some "rob123"⟩⟩, none⟩).1
    "Bob" rfl (by decide)

/-- C10: in display name resolution, an identity field that is present
but equal to the empty string is treated the same as an absent field:
a payload with member nickname "" resolves to the global display name,
and a payload where nickname, global name and username are all empty
strings resolves to "Unknown"; at the level of the `or` chain,
`some ""` and `none` behave identically. -/
theorem c10_empty_string_is_absent :
    (∀ d g, (effMember d).nick = some "" → (effUser d).global_name = some g →
      g ≠ "" → extract_user_display d = g) ∧
    (∀ d, (effMember d).nick = some "" → (effUser d).global_name = some "" →
      (effUser d).username = some "" → extract_user_display d = "Unknown") ∧
    (∀ b, pyStrOr (some "") b = pyStrOr none b) := by
  refine ⟨?_, ?_, ?_⟩
  · intro d g hn hg hge
    simp [extract_user_display, pyStrOr, hn, hg, hge]
  · intro d hn hg hu
    simp [extract_user_display, pyStrOr, hn, hg, hu]
  · intro b
    simp [pyStrOr]

theorem c10_empty_string_is_absent_witness :
    extract_user_display
      ⟨some 2, none, some ⟨some "", some ⟨some "robert", some "rob123"⟩⟩, none⟩
      = "robert" :=
  c10_empty_string_is_absent.1
    ⟨some 2, none, some ⟨some "", some ⟨some "robert", some "rob123"⟩⟩, none⟩
    "robert" rfl rfl (by decide)

/-- An environment with all four guarded variables set but `TIMEZONE`,
`GOOGLE_SHEET_NAME` and `PORT` absent. -/
def envNoTz : Env :=
  ⟨none, none, some "pk", some "tok", some "app", none, some "{}", none⟩

/-- C7 counterexample: the claim lists the time zone name, spreadsheet
display name and listen port among the required values whose absence
must abort startup, but the code gives all three defaults: with
`TIMEZONE`, `GOOGLE_SHEET_NAME` and `PORT` unset (and the four guarded
variables set), startup succeeds with `Asia/Kolkata`, `Daily Logs` and
port 5000 instead of failing fast. -/
theorem c7_counterexample :
    envNoTz.TIMEZONE = none ∧ envNoTz.GOOGLE_SHEET_NAME = none ∧
    envNoTz.PORT = none ∧
    startupConfig envNoTz
      = Except.ok ⟨"Asia/Kolkata", "Daily Logs", "pk", "tok", "app", none, "{}"⟩ ∧
    listenPort envNoTz = some 5000 :=
  ⟨rfl, rfl, rfl, rfl, by decide⟩

/-- C7 (amended): at process startup, if any of the platform public
key, bot token, application id, or service-account credential JSON is
absent from the environment (or empty), the process fails fast with a
descriptive error before serving any request; the time zone name,
spreadsheet display name and listen port are not required — they fall
back to the defaults "Asia/Kolkata", "Daily Logs" and 5000. -/
theorem c7_required_config (e : Env) :
    (pyTruthy e.DISCORD_PUBLIC_KEY = false →
      startupConfig e = Except.error "DISCORD_PUBLIC_KEY env var is required") ∧
    (pyTruthy e.DISCORD_PUBLIC_KEY = true → pyTruthy e.DISCORD_TOKEN = false →
      startupConfig e = Except.error "DISCORD_TOKEN env var is required") ∧
    (pyTruthy e.DISCORD_PUBLIC_KEY = true → pyTruthy e.DISCORD_TOKEN = true →
      pyTruthy e.DISCORD_APP_ID = false →
      startupConfig e = Except.error "DISCORD_APP_ID env var is required") ∧
    (pyTruthy e.DISCORD_PUBLIC_KEY = true → pyTruthy e.DISCORD_TOKEN = true →
      pyTruthy e.DISCORD_APP_ID = true → pyTruthy e.GOOGLE_CREDS_JSON = false →
      startupConfig e = Except.error "GOOGLE_CREDS_JSON environment variable not set.") ∧
    (pyTruthy e.DISCORD_PUBLIC_KEY = true → pyTruthy e.DISCORD_TOKEN = true →
      pyTruthy e.DISCORD_APP_ID = true → pyTruthy e.GOOGLE_CREDS_JSON = true →
      startupConfig e = Except.ok ⟨e.TIMEZONE.getD "Asia/Kolkata",
        e.GOOGLE_SHEET_NAME.getD "Daily Logs", e.DISCORD_PUBLIC_KEY.getD "",
        e.DISCORD_TOKEN.getD "", e.DISCORD_APP_ID.getD "", e.DISCORD_GUILD_ID,
        e.GOOGLE_CREDS_JSON.getD ""⟩) ∧
    (e.PORT = none → listenPort e = some 5000) := by
  refine ⟨?_, ?_, ?_, ?_, ?_, ?_⟩
  · intro h1
    simp [startupConfig, h1]
  · intro h1 h2
    simp [startupConfig, h1, h2]
  · intro h1 h2 h3
    simp [startupConfig, h1, h2, h3]
  · intro h1 h2 h3 h4
    simp [startupConfig, h1, h2, h3, h4]
  · intro h1 h2 h3 h4
    simp [startupConfig, h1, h2, h3, h4]
  · intro h
    rw [listenPort, h]
    decide

theorem c7_required_config_witness :
    startupConfig ⟨some "UTC", none, some "pk", none, some "app", none, some "{}", none⟩
      = Except.error "DISCORD_TOKEN env var is required" :=
  (c7_required_config
    ⟨some "UTC", none, some "pk", none, some "app", none, some "{}", none⟩).2.1
    rfl rfl

/-- C8 counterexample: the claim says that for every outcome of the
startup command-registration call the process does not crash and the
HTTP server still starts, but `register_commands` wraps no `try`
around `requests.put`: when the library raises (e.g. a connection
error), the exception propagates through `__main__` and `app.run` is
never reached. -/
theorem c8_counterexample :
    main_reaches_server (PutOutcome.raised "requests.exceptions.ConnectionError") = false :=
  rfl

/-- C8 (amended): for every COMPLETED HTTP response of the startup
command-registration call — any status code and body — the process
does not crash and the server starts; a non-200/201 status is logged
as an error, a 200/201 status as an info line.  (An exception raised
by the HTTP library itself, before a response exists, is not handled
and crashes the process.) -/
theorem c8_registration_response_nonfatal (st : Nat) (tx : String) :
    main_reaches_server (PutOutcome.response st tx) = true ∧
    (¬(st = 200 ∨ st = 201) →
      register_commands (PutOutcome.response st tx) = Except.ok LogLevel.error) ∧
    (st = 200 ∨ st = 201 →
      register_commands (PutOutcome.response st tx) = Except.ok LogLevel.info) := by
  refine ⟨?_, ?_, ?_⟩
  · by_cases h : st = 200 ∨ st = 201 <;>
      simp [main_reaches_server, register_commands, h]
  · intro h
    simp [register_commands, h]
  · intro h
    simp [register_commands, h]

theorem c8_registration_response_nonfatal_witness :
    main_reaches_server (PutOutcome.response 500 "Internal Server Error") = true ∧
    register_commands (PutOutcome.response 500 "Internal Server Error")
      = Except.ok LogLevel.error :=
  ⟨(c8_registration_response_nonfatal 500 "Internal Server Error").1,
   (c8_registration_response_nonfatal 500 "Internal Server Error").2.1 (by decide)⟩

/-- `cmd = data.get("data", {}).get("name")` (line 147). -/
def cmdName (d : Interaction) : Option String :=
  (d.data.getD ⟨none, []⟩).name

/-- `options = data.get("data", {}).get("options", [])` (line 160). -/
def cmdOptions (d : Interaction) : List OptionObj :=
  (d.data.getD ⟨none, []⟩).options

/-- C9: for every verified interaction payload with type=1 (PING), the
handler returns exactly the body `{type: 1}` (no `data` member) and
performs no external call: the sheet is unchanged, whatever the state
of the spreadsheet backend. -/
theorem c9_ping_pong (V : List Nat → List Nat → List Nat → Bool)
    (pk : List Nat) (payload : Option Interaction) (clk : Clock)
    (sheetOk : Bool) (errMsg : String) (req : Request) (sheet : List (List String))
    (hv : verify_discord_request V pk req = true)
    (ht : (payload.getD Interaction.empty).type = some 1) :
    interactions V pk payload clk sheetOk errMsg req sheet = (HResp.ok 1 none, sheet) := by
  simp [interactions, hv, ht]

/-- C6: for every verified type=2 interaction whose command name is not
start/end/work_done, and for every verified interaction whose type is
neither 1 nor 2, no row is appended and the handler returns a
200-status response with the corresponding generic message. -/
theorem c6_unknown_inputs_no_write (V : List Nat → List Nat → List Nat → Bool)
    (pk : List Nat) (payload : Option Interaction) (clk : Clock)
    (sheetOk : Bool) (errMsg : String) (req : Request) (sheet : List (List String))
    (d : Interaction)
    (hv : verify_discord_request V pk req = true)
    (hd : payload.getD Interaction.empty = d) :
    (d.type = some 2 → cmdName d ≠ some "start" → cmdName d ≠ some "end" →
      cmdName d ≠ some "work_done" →
      interactions V pk payload clk sheetOk errMsg req sheet
        = (HResp.ok 4 (some "⚠ Unknown command"), sheet) ∧
      (interactions V pk payload clk sheetOk errMsg req sheet).1.status = 200) ∧
    (d.type ≠ some 1 → d.type ≠ some 2 →
      interactions V pk payload clk sheetOk errMsg req sheet
        = (HResp.ok 4 (some "Unsupported interaction type"), sheet) ∧
      (interactions V pk payload clk sheetOk errMsg req sheet).1.status = 200) := by
  constructor
  · intro ht hstart hend hwork
    rw [cmdName] at hstart hend hwork
    have he : interactions V pk payload clk sheetOk errMsg req sheet
        = (HResp.ok 4 (some "⚠ Unknown command"), sheet) := by
      simp [interactions, hv, hd, ht, hstart, hend, hwork]
    exact ⟨he, by rw [he]; rfl⟩
  · intro h1 h2
    have he : interactions V pk payload clk sheetOk errMsg req sheet
        = (HResp.ok 4 (some "Unsupported interaction type"), sheet) := by
      simp [interactions, hv, hd, h1, h2]
    exact ⟨he, by rw [he]; rfl⟩

/-- C3: for every verified type=2 interaction naming start, end or
work_done (with the spreadsheet call succeeding), exactly one row is
appended: ("Start", "", ""), ("End", "", "") or ("Task", task_title,
desc) with the option values defaulting to "" when absent; the
response confirms the action, naming the user for start/end and
echoing title and description for work_done. -/
theorem c3_commands_log_one_row (V : List Nat → List Nat → List Nat → Bool)
    (pk : List Nat) (payload : Option Interaction) (clk : Clock)
    (errMsg : String) (req : Request) (sheet : List (List String))
    (d : Interaction)
    (hv : verify_discord_request V pk req = true)
    (hd : payload.getD Interaction.empty = d)
    (ht : d.type = some 2) :
    (cmdName d = some "start" →
      interactions V pk payload clk true errMsg req sheet
        = (HResp.ok 4 (some ("🟢 Start logged for **" ++ extract_user_display d ++ "**")),
           sheet ++ [[clk.dateStr, extract_user_display d, "Start", clk.timeStr, "", ""]])) ∧
    (cmdName d = some "end" →
      interactions V pk payload clk true errMsg req sheet
        = (HResp.ok 4 (some ("🔴 End logged for **" ++ extract_user_display d ++ "**")),
           sheet ++ [[clk.dateStr, extract_user_display d, "End", clk.timeStr, "", ""]])) ∧
    (cmdName d = some "work_done" →
      interactions V pk payload clk true errMsg req sheet
        = (HResp.ok 4 (some ("✅ Task logged: **" ++ option_value (cmdOptions d) "task_title" ""
              ++ "** — " ++ option_value (cmdOptions d) "desc" "")),
           sheet ++ [[clk.dateStr, extract_user_display d, "Task",
              clk.timeStr, option_value (cmdOptions d) "task_title" "",
              option_value (cmdOptions d) "desc" ""]])) := by
  refine ⟨?_, ?_, ?_⟩
  · intro hcmd
    rw [cmdName] at hcmd
    simp [interactions, hv, hd, ht, hcmd, log_to_sheet]
  · intro hcmd
    rw [cmdName] at hcmd
    simp [interactions, hv, hd, ht, hcmd, log_to_sheet]
  · intro hcmd
    rw [cmdName] at hcmd
    simp [interactions, hv, hd, ht, hcmd, log_to_sheet, cmdOptions]

/-- C4: for every verified type=2 interaction with a recognized
command, a fault raised by the spreadsheet append is caught at the
handler boundary and turned into the well-formed 200 response
`{type: 4, data: {content: "❌ Error: ..."}}`, leaving the sheet
unchanged. -/
theorem c4_handler_catches_faults (V : List Nat → List Nat → List Nat → Bool)
    (pk : List Nat) (payload : Option Interaction) (clk : Clock)
    (errMsg : String) (req : Request) (sheet : List (List String))
    (d : Interaction)
    (hv : verify_discord_request V pk req = true)
    (hd : payload.getD Interaction.empty = d)
    (ht : d.type = some 2)
    (hcmd : cmdName d = some "start" ∨ cmdName d = some "end" ∨
      cmdName d = some "work_done") :
    interactions V pk payload clk false errMsg req sheet
      = (HResp.ok 4 (some ("❌ Error: " ++ errMsg)), sheet) ∧
    (interactions V pk payload clk false errMsg req sheet).1.status = 200 := by
  have he : interactions V pk payload clk false errMsg req sheet
      = (HResp.ok 4 (some ("❌ Error: " ++ errMsg)), sheet) := by
    rw [cmdName] at hcmd
    rcases hcmd with h | h | h <;> simp [interactions, hv, hd, ht, h]
  exact ⟨he, by rw [he]; rfl⟩

/-- Shared concrete inputs for the witnesses: a 64-zero public key in
hex, a 128-zero signature in hex, timestamp "1", empty body. -/
def demoPk : List Nat := List.replicate 64 48

/-- The demo signature header: 128 hex zeros. -/
def demoSigHeader : List Nat := List.replicate 128 48

/-- A demo request carrying both headers and an empty body. -/
def demoReq : Request := ⟨some demoSigHeader, some [49], []⟩

/-- A demo clock. -/
def demoClk : Clock := ⟨"2024-01-01", "12:00:00"⟩

/-- A primitive that accepts everything, for handler witnesses. -/
def demoTrue : List Nat → List Nat → List Nat → Bool := fun _ _ _ => true

theorem c9_ping_pong_witness :
    interactions demoTrue demoPk (some ⟨some 1, none, none, none⟩) demoClk true "boom"
      demoReq [] = (HResp.ok 1 none, []) :=
  c9_ping_pong demoTrue demoPk (some ⟨some 1, none, none, none⟩) demoClk true "boom"
    demoReq [] (by decide) rfl

theorem c6_unknown_inputs_no_write_witness :
    interactions demoTrue demoPk (some ⟨some 2, some ⟨some "frobnicate", []⟩, none, none⟩)
      demoClk true "boom" demoReq []
      = (HResp.ok 4 (some "⚠ Unknown command"), []) :=
  ((c6_unknown_inputs_no_write demoTrue demoPk
      (some ⟨some 2, some ⟨some "frobnicate", []⟩, none, none⟩) demoClk true "boom"
      demoReq [] ⟨some 2, some ⟨some "frobnicate", []⟩, none, none⟩
      (by decide) rfl).1 rfl (by decide) (by decide) (by decide)).1

theorem c3_commands_log_one_row_witness :
    interactions demoTrue demoPk
      (some ⟨some 2, some ⟨some "start", []⟩, some ⟨some "Bob", none⟩, none⟩)
      demoClk true "boom" demoReq []
      = (HResp.ok 4 (some "🟢 Start logged for **Bob**"),
         [["2024-01-01", "Bob", "Start", "12:00:00", "", ""]]) :=
  (c3_commands_log_one_row demoTrue demoPk
      (some ⟨some 2, some ⟨some "start", []⟩, some ⟨some "Bob", none⟩, none⟩)
      demoClk "boom" demoReq [] ⟨some 2, some ⟨some "start", []⟩, some ⟨some "Bob", none⟩, none⟩
      (by decide) rfl rfl).1 rfl

theorem c4_handler_catches_faults_witness :
    interactions demoTrue demoPk
      (some ⟨some 2, some ⟨some "start", []⟩, some ⟨some "Bob", none⟩, none⟩)
      demoClk false "APIError" demoReq []
      = (HResp.ok 4 (some "❌ Error: APIError"), []) :=
  (c4_handler_catches_faults demoTrue demoPk
      (some ⟨some 2, some ⟨some "start", []⟩, some ⟨some "Bob", none⟩, none⟩)
      demoClk "APIError" demoReq [] ⟨some 2, some ⟨some "start", []⟩, some ⟨some "Bob", none⟩, none⟩
      (by decide) rfl rfl (Or.inl rfl)).1

/-- The failure conditions enumerated by the spec for
`verify_discord_request`: a missing signature or timestamp header,
signature or public key that is not valid hex, or the Ed25519
primitive rejecting the timestamp‖body message. -/
def SigFailure (V : List Nat → List Nat → List Nat → Bool)
    (publicKey : List Nat) (req : Request) : Prop :=
  req.sigHeader = none ∨ req.tsHeader = none ∨
  (∃ s, req.sigHeader = some s ∧ fromhex s = none) ∨
  fromhex publicKey = none ∨
  (∀ ts sigH bodyStr pkB sigB, req.tsHeader = some ts → req.sigHeader = some sigH →
    utf8Decode req.body = some bodyStr → fromhex publicKey = some pkB →
    fromhex sigH = some sigB →
    V pkB (utf8Encode (ts ++ bodyStr)) sigB = false)

/-- C1: for every POST /interactions request with a missing signature
header, signature or public key that is not valid hex, or failing
Ed25519 verification of the timestamp‖body message, the verifier
returns false (no fault escapes: the embedding is total), the request
is rejected with HTTP status 401, and no spreadsheet append is
performed. -/
theorem c1_invalid_requests_rejected (V : List Nat → List Nat → List Nat → Bool)
    (pk : List Nat) (payload : Option Interaction) (clk : Clock)
    (sheetOk : Bool) (errMsg : String) (req : Request) (sheet : List (List String))
    (h : SigFailure V pk req) :
    verify_discord_request V pk req = false ∧
    interactions V pk payload clk sheetOk errMsg req sheet
      = (HResp.unauthorized 401 "Invalid request signature", sheet) ∧
    (interactions V pk payload clk sheetOk errMsg req sheet).1.status = 401 := by
  have hv : verify_discord_request V pk req = false := by
    cases hveq : verify_discord_request V pk req with
    | false => rfl
    | true =>
      exfalso
      obtain ⟨sigH, ts, bodyStr, pkB, sigB, h1, h2, h3, h4, h5, h6, h7, h8⟩ :=
        verify_true_elim hveq
      rcases h with hna | hna | ⟨s, hs, hfx⟩ | hna | hV
      · rw [hna] at h1; cases h1
      · rw [hna] at h2; cases h2
      · rw [hs] at h1
        obtain rfl : s = sigH := by simpa using h1
        rw [hfx] at h6; cases h6
      · rw [hna] at h4; cases h4
      · have hf := hV ts sigH bodyStr pkB sigB h2 h1 h3 h4 h6
        rw [h8] at hf; cases hf
  have he : interactions V pk payload clk sheetOk errMsg req sheet
      = (HResp.unauthorized 401 "Invalid request signature", sheet) := by
    simp [interactions, hv]
  exact ⟨hv, he, by rw [he]; rfl⟩

theorem c1_invalid_requests_rejected_witness :
    verify_discord_request demoTrue demoPk ⟨none, some [49], []⟩ = false ∧
    interactions demoTrue demoPk none demoClk true "boom" ⟨none, some [49], []⟩ []
      = (HResp.unauthorized 401 "Invalid request signature", []) :=
  ⟨(c1_invalid_requests_rejected demoTrue demoPk none demoClk true "boom"
      ⟨none, some [49], []⟩ [] (Or.inl rfl)).1,
   (c1_invalid_requests_rejected demoTrue demoPk none demoClk true "boom"
      ⟨none, some [49], []⟩ [] (Or.inl rfl)).2.1⟩

/-- C2: a request whose signature the Ed25519 primitive accepts for
the configured key over timestamp‖body verifies; and — provided the
primitive accepts only that (message, signature) pair for this key, as
Ed25519's strong unforgeability guarantees — changing any single byte
of the body, any single character of the timestamp, or any single byte
of the decoded signature makes the verifier return false. -/
theorem c2_verifier_sound_and_tamper_evident
    (V : List Nat → List Nat → List Nat → Bool) (pkH : List Nat) (req : Request)
    (ts sigH bodyStr pkB sigB : List Nat)
    (hts : req.tsHeader = some ts) (hsig : req.sigHeader = some sigH)
    (hbody : utf8Decode req.body = some bodyStr)
    (hpk : fromhex pkH = some pkB) (hpkLen : pkB.length = 32)
    (hsx : fromhex sigH = some sigB) (hsLen : sigB.length = 64)
    (htsValid : ∀ c ∈ ts, ValidCP c)
    (hAccept : V pkB (utf8Encode (ts ++ bodyStr)) sigB = true)
    (hReject : ∀ m s, m ≠ utf8Encode (ts ++ bodyStr) ∨ s ≠ sigB → V pkB m s = false) :
    verify_discord_request V pkH req = true ∧
    (∀ body', OneDiff req.body body' →
      verify_discord_request V pkH ⟨req.sigHeader, req.tsHeader, body'⟩ = false) ∧
    (∀ ts', OneDiff ts ts' → (∀ c ∈ ts', ValidCP c) →
      verify_discord_request V pkH ⟨req.sigHeader, some ts', req.body⟩ = false) ∧
    (∀ sigH' sigB', fromhex sigH' = some sigB' → OneDiff sigB sigB' →
      verify_discord_request V pkH ⟨some sigH', req.tsHeader, req.body⟩ = false) := by
  refine ⟨?_, ?_, ?_, ?_⟩
  · rw [verify_eq_of hsig hts hbody hpk hpkLen hsx hsLen]
    exact hAccept
  · intro body' hdiff
    cases hdec : utf8Decode body' with
    | none =>
      cases hvv : verify_discord_request V pkH ⟨req.sigHeader, req.tsHeader, body'⟩ with
      | false => rfl
      | true =>
        exfalso
        obtain ⟨_, _, bodyStr', _, _, _, _, hb', _⟩ := verify_true_elim hvv
        rw [show (Request.mk req.sigHeader req.tsHeader body').body = body' from rfl,
          hdec] at hb'
        cases hb'
    | some s' =>
      have henc' : utf8Encode s' = body' := utf8Encode_utf8Decode hdec
      have hencb : utf8Encode bodyStr = req.body := utf8Encode_utf8Decode hbody
      rw [@verify_eq_of V pkH ⟨req.sigHeader, req.tsHeader, body'⟩ sigH ts s' pkB sigB
        hsig hts hdec hpk hpkLen hsx hsLen]
      apply hReject
      left
      intro he
      rw [utf8Encode_append, utf8Encode_append, henc', hencb] at he
      exact OneDiff.ne hdiff (List.append_cancel_left he).symm
  · intro ts' hdiff hvalid'
    rw [@verify_eq_of V pkH ⟨req.sigHeader, some ts', req.body⟩ sigH ts' bodyStr pkB sigB
      hsig rfl hbody hpk hpkLen hsx hsLen]
    apply hReject
    left
    intro he
    rw [utf8Encode_append, utf8Encode_append] at he
    have hl : (utf8Encode ts').length = (utf8Encode ts).length := by
      have hc := congrArg List.length he
      simp only [List.length_append] at hc
      omega
    exact utf8Encode_oneDiff_ne htsValid hvalid' hdiff (List.append_inj he hl).1.symm
  · intro sigH' sigB' hfx' hdiff
    have hlen' : sigB'.length = 64 := by
      have := OneDiff.length_eq hdiff
      omega
    rw [@verify_eq_of V pkH ⟨some sigH', req.tsHeader, req.body⟩ sigH' ts bodyStr pkB sigB'
      rfl hts hbody hpk hpkLen hfx' hlen']
    apply hReject
    right
    exact (OneDiff.ne hdiff).symm

/-- A primitive that accepts exactly the message "1" (the demo
timestamp followed by the empty body) with the 64-zero-byte signature,
for the C2 witness. -/
def demoV : List Nat → List Nat → List Nat → Bool :=
  fun _ m s => m == [49] && s == List.replicate 64 0

theorem c2_verifier_sound_and_tamper_evident_witness :
    verify_discord_request demoV demoPk demoReq = true :=
  (c2_verifier_sound_and_tamper_evident demoV demoPk demoReq
    [49] demoSigHeader [] (List.replicate 32 0) (List.replicate 64 0)
    rfl rfl rfl (by decide) (by decide) (by decide) (by decide) (by decide)
    (by decide)
    (fun m s h => by
      rcases h with h | h
      · have h' : (m == [49]) = false := beq_eq_false_iff_ne.mpr h
        simp only [demoV]
        rw [h', Bool.false_and]
      · have h' : (s == List.replicate 64 0) = false := beq_eq_false_iff_ne.mpr h
        simp only [demoV]
        rw [h', Bool.and_false])).1
